import Mathlib

/-!
Verification of the semantic retrieval engine of `app/rag_engine.py`
(class `RAGEngine`): a shallow embedding of its state, its persistence,
and its search pipeline, followed by theorems settling the spec claims.

Modelling conventions:
* real numbers (embedding components, similarity scores) are `ℚ`;
* the FAISS flat inner-product index is the list of its row vectors;
* Python `None` / a missing or unreadable file is `Option.none`;
* code that can raise returns `Option` (`none` = an uncaught exception);
* the sentence-transformer encoder and `faiss.normalize_L2` are external
  pure functions, carried as parameters in `Env`.
-/

namespace RAG

/-- One retrievable knowledge unit, modelling the JSON/dict entries held in
`self.faqs`.  `similarity_score` models the optional key that
`get_relevant_faqs` adds to a copy of an entry; stored entries have `none`. -/
structure Entry where
  question : String
  answer : String
  category : Option String := none
  order_id : Option String := none
  similarity_score : Option ℚ := none
deriving DecidableEq

/-- One element of `order['items']` in `data/order_database.json`. -/
structure OrderItem where
  name : String
  quantity : Nat
deriving DecidableEq

/-- One order record from `data/order_database.json`.  `total_amount` is
carried as the decimal rendering produced by the f-string interpolation in
`load_order_data`. -/
structure OrderRecord where
  order_id : String
  customer_name : String
  restaurant : String
  items : List OrderItem
  total_amount : String
  status : String
  delivery_address : String
deriving DecidableEq

/-- The mutable state of a `RAGEngine` object: `self.index` (`none` models
Python `None`; `some rows` models a flat inner-product index whose vectors are
`rows`, row order = insertion order) and the entry list `self.faqs`. -/
structure RAGState where
  index : Option (List (List ℚ))
  faqs : List Entry
deriving DecidableEq

/-- The two persisted artifacts: the index file at `self.index_path` and the
sibling `_faqs.pkl` pickle.  `none` models an absent or unreadable file. -/
structure Disk where
  indexFile : Option (List (List ℚ))
  faqsFile : Option (List Entry)
deriving DecidableEq

/-- The engine's fixed environment: the sentence-transformer batch encoder
(`self.model.encode`, a pure function per the spec), `faiss.normalize_L2`
applied to one row, and the two upstream data sources (`none` = file missing
or unparsable, which the loaders degrade to an empty contribution). -/
structure Env where
  encode : List String → List (List ℚ)
  normalize : List ℚ → List ℚ
  faqSource : Option (List Entry)
  orderSource : Option (List OrderRecord)

/-- `RAGEngine.load_faqs`: on success `self.faqs` is replaced by the parsed
file; on `FileNotFoundError` / `JSONDecodeError` the state is left unchanged
(the function returns `[]` there, but its callers ignore the return value). -/
def load_faqs (env : Env) (s : RAGState) : RAGState :=
  match env.faqSource with
  | some fs => { s with faqs := fs }
  | none => s

/-- The `"name (xquantity)"` rendering of one order item, from the inner
f-string of `load_order_data`. -/
def itemText (it : OrderItem) : String :=
  it.name ++ " (x" ++ toString it.quantity ++ ")"

/-- The flattened answer text synthesized for one order record by
`load_order_data`. -/
def orderAnswer (o : OrderRecord) : String :=
  "Order ID: " ++ o.order_id ++ ", Customer: " ++ o.customer_name ++
    ", Restaurant: " ++ o.restaurant ++ ", Items: " ++
    String.intercalate ", " (o.items.map itemText) ++
    ", Total: $" ++ o.total_amount ++ ", Status: " ++ o.status ++
    ", Delivery Address: " ++ o.delivery_address

/-- The FAQ-format entry synthesized for one order record by
`load_order_data`. -/
def orderToEntry (o : OrderRecord) : Entry :=
  { question := "Order " ++ o.order_id ++ " details"
    answer := orderAnswer o
    category := some "order_data"
    order_id := some o.order_id
    similarity_score := none }

/-- `RAGEngine.load_order_data`: the list of synthesized order entries
(`[]` when the order file is missing or unparsable). -/
def load_order_data (env : Env) : List Entry :=
  match env.orderSource with
  | some orders => orders.map orderToEntry
  | none => []

/-- `RAGEngine.create_embeddings`: if `self.faqs` is empty, `load_faqs` runs
first; then the order-derived entries are appended to `self.faqs`
(`self.faqs.extend(order_faqs)`), the texts `question + " " + answer` are
formed, and the encoder is applied to the whole batch.  Returns the raw
embeddings and the updated state. -/
def create_embeddings (env : Env) (s : RAGState) : List (List ℚ) × RAGState :=
  let s1 := if s.faqs.isEmpty then load_faqs env s else s
  let faqs2 := s1.faqs ++ load_order_data env
  let texts := faqs2.map (fun e => e.question ++ " " ++ e.answer)
  (env.encode texts, { s1 with faqs := faqs2 })

/-- `RAGEngine.build_index`: embeds, L2-normalizes every row, and replaces
`self.index` with a fresh flat inner-product index holding the normalized
rows in input order. -/
def build_index (env : Env) (s : RAGState) : RAGState :=
  let er := create_embeddings env s
  { er.2 with index := some (er.1.map env.normalize) }

/-- `RAGEngine.save_index`: a no-op when `self.index is None`; otherwise both
artifacts are (re)written from the in-memory pair. -/
def save_index (s : RAGState) (d : Disk) : Disk :=
  match s.index with
  | none => d
  | some idx => { indexFile := some idx, faqsFile := some s.faqs }

/-- `RAGEngine.load_index`: reads the index artifact, assigning `self.index`,
then reads the entries artifact, assigning `self.faqs`; any exception is
caught and `False` returned.  Note the source assigns `self.index` before
attempting to read the entries file, so a failure on the second read leaves
the freshly loaded index published. -/
def load_index (d : Disk) (s : RAGState) : Bool × RAGState :=
  match d.indexFile with
  | none => (false, s)
  | some idx =>
    match d.faqsFile with
    | none => (false, { s with index := some idx })
    | some fs => (true, { s with index := some idx, faqs := fs })

/-- The score FAISS reports for a padding slot of an inner-product search
(missing neighbor): the most negative float32 value.  Its exact value is
irrelevant to every property below; only that it accompanies row label `-1`
matters. -/
def FLOAT_LOWEST : ℚ := -340282346638528859811704183484516925440

/-- Inner product of two vectors. -/
def dot (u v : List ℚ) : ℚ :=
  (List.zipWith (fun a b => a * b) u v).sum

/-- Stable insertion of a `(score, row)` pair into a list that is sorted by
descending score: the pair goes in front of the first element whose score
does not exceed it, so equal scores keep their original (lower-row-first)
order. -/
def insertByScore (p : ℚ × Int) : List (ℚ × Int) → List (ℚ × Int)
  | [] => [p]
  | q :: rest => if q.1 ≤ p.1 then p :: q :: rest else q :: insertByScore p rest

/-- Stable sort of `(score, row)` pairs by descending score, ties broken by
lower row index (the rows are enumerated in increasing order before
sorting). -/
def sortByScore : List (ℚ × Int) → List (ℚ × Int)
  | [] => []
  | p :: rest => insertByScore p (sortByScore rest)

/-- `index.search(query_vector, k)` for a flat inner-product FAISS index,
modelled from FAISS's documented exact-search semantics: the `k` best rows by
inner product, ordered by descending score (ties: lower row first), and — when
the index holds fewer than `k` rows — padded up to length `k` with sentinel
label `-1` and the padding score. -/
def faissSearch (rows : List (List ℚ)) (q : List ℚ) (k : Nat) : List (ℚ × Int) :=
  let scored := rows.enum.map (fun p => (dot q p.2, (p.1 : Int)))
  (sortByScore scored).take k ++ List.replicate (k - rows.length) (FLOAT_LOWEST, -1)

/-- The effective position of Python list subscription: negative indices count
from the end of a list of length `n`. -/
def pythonIdx (n : Nat) (i : Int) : Int :=
  if i < 0 then (n : Int) + i else i

/-- Python list subscription `xs[i]` for a possibly negative `int` index: an
index out of range (in either direction) raises (`none`). -/
def pythonGet {α : Type _} (xs : List α) (i : Int) : Option α :=
  if 0 ≤ pythonIdx xs.length i then xs.get? (pythonIdx xs.length i).toNat else none

/-- The result-collection loop of `RAGEngine.search`: for each `(score, idx)`
pair, if `idx < len(self.faqs)` then `self.faqs[idx]` is appended with its
score; an out-of-range subscription raises, aborting the whole call
(`none`). -/
def collectResults (faqs : List Entry) : List (ℚ × Int) → Option (List (Entry × ℚ))
  | [] => some []
  | p :: rest =>
    if p.2 < (faqs.length : Int) then
      match pythonGet faqs p.2 with
      | none => none
      | some e => (collectResults faqs rest).map (fun tail => (e, p.1) :: tail)
    else collectResults faqs rest

/-- `RAGEngine.search`: if `self.index is None`, first try `load_index`, else
`build_index` and `save_index`; then encode and normalize the query, run the
FAISS top-`k` search, and map the returned rows back through `self.faqs`.
`none` models an uncaught exception escaping the call. -/
def search (env : Env) (query : String) (k : Nat) (s : RAGState) (d : Disk) :
    Option (List (Entry × ℚ) × RAGState × Disk) :=
  let sd :=
    match s.index with
    | some _ => (s, d)
    | none =>
      let r := load_index d s
      if r.1 then (r.2, d)
      else
        let sb := build_index env r.2
        (sb, save_index sb d)
  match sd.1.index with
  | none => none
  | some rows =>
    let qv := env.normalize ((env.encode [query]).headD [])
    (collectResults sd.1.faqs (faissSearch rows qv k)).map (fun res => (res, sd.1, sd.2))

/-- The filter-and-annotate loop of `RAGEngine.get_relevant_faqs`: results
with `score >= threshold` survive, each as a copy of its entry with the
`similarity_score` key set to the score. -/
def relevantLoop (threshold : ℚ) : List (Entry × ℚ) → List Entry
  | [] => []
  | p :: rest =>
    if threshold ≤ p.2 then
      { p.1 with similarity_score := some p.2 } :: relevantLoop threshold rest
    else relevantLoop threshold rest

/-- `RAGEngine.get_relevant_faqs`: `search(query, k=5)` followed by threshold
filtering and annotation. -/
def get_relevant_faqs (env : Env) (query : String) (threshold : ℚ)
    (s : RAGState) (d : Disk) : Option (List Entry × RAGState × Disk) :=
  (search env query 5 s d).map (fun r => (relevantLoop threshold r.1, r.2.1, r.2.2))

/-- `RAGEngine.initialize`: try `load_index`; on failure, `build_index` then
`save_index`. -/
def initializeEngine (env : Env) (s : RAGState) (d : Disk) : RAGState × Disk :=
  let r := load_index d s
  if r.1 then (r.2, d)
  else
    let sb := build_index env r.2
    (sb, save_index sb d)

/-- Checks that every entry of `out` is a copy of some entry of `faqs` with
only the `similarity_score` key (re)set, and that the key is set. -/
def annotatedFrom (faqs out : List Entry) : Bool :=
  out.all (fun x =>
    x.similarity_score.isSome &&
      faqs.any (fun e => decide (x = { e with similarity_score := x.similarity_score })))

/-! ### Concrete fixtures for witnesses and counterexamples -/

/-- A plain FAQ entry. -/
def e0 : Entry := { question := "q0", answer := "a0" }

/-- A second plain FAQ entry. -/
def e1 : Entry := { question := "q1", answer := "a1" }

/-- A concrete order record. -/
def o0 : OrderRecord :=
  { order_id := "ORD1", customer_name := "Ann", restaurant := "R",
    items := [{ name := "Pizza", quantity := 2 }],
    total_amount := "10.5", status := "delivered", delivery_address := "X" }

/-- Environment with empty data sources and an encoder that maps every text to
the empty vector (so every inner product is `0`, keeping concrete runs exactly
computable). -/
def envE : Env :=
  { encode := fun ts => ts.map (fun _ => ([] : List ℚ))
    normalize := id
    faqSource := some []
    orderSource := some [] }

/-- Environment whose sources hold one FAQ entry and one order record. -/
def env5 : Env :=
  { encode := fun ts => ts.map (fun _ => ([] : List ℚ))
    normalize := id
    faqSource := some [e0]
    orderSource := some [o0] }

/-- A ready engine state: a one-row index paired with one stored entry. -/
def cS : RAGState := { index := some [[]], faqs := [e0] }

/-- An empty persisted store. -/
def cD : Disk := { indexFile := none, faqsFile := none }

/-- The value `search envE "q" 5 cS cD` returns: the real row plus four FAISS
padding slots, each of which the code maps to the last stored entry via
Python's negative indexing. -/
def rs0 : List (Entry × ℚ) :=
  [(e0, 0), (e0, FLOAT_LOWEST), (e0, FLOAT_LOWEST), (e0, FLOAT_LOWEST), (e0, FLOAT_LOWEST)]

/-- The single annotated entry `get_relevant_faqs envE "q" 0 cS cD` returns. -/
def out0 : List Entry := [{ e0 with similarity_score := some 0 }]

/-! ### Helper lemmas -/

/-- A successful Python subscription returns a member of the list. -/
theorem pythonGet_mem {α : Type _} {xs : List α} {i : Int} {a : α}
    (h : pythonGet xs i = some a) : a ∈ xs := by
  unfold pythonGet at h
  split at h
  · exact List.get?_mem h
  · cases h

/-- Every entry the result-collection loop of `search` emits is a member of
the stored entry list. -/
theorem collectResults_mem {faqs : List Entry} :
    ∀ {ps : List (ℚ × Int)} {rs : List (Entry × ℚ)},
      collectResults faqs ps = some rs → ∀ p ∈ rs, p.1 ∈ faqs := by
  intro ps
  induction ps with
  | nil =>
    intro rs h p hp
    obtain rfl : ([] : List (Entry × ℚ)) = rs := Option.some.inj h
    cases hp
  | cons q rest ih =>
    intro rs h p hp
    simp only [collectResults] at h
    split at h
    · cases hg : pythonGet faqs q.2 with
      | none => rw [hg] at h; cases h
      | some e =>
        rw [hg] at h
        cases hc : collectResults faqs rest with
        | none => rw [hc] at h; cases h
        | some tail =>
          rw [hc] at h
          simp only [Option.map_some'] at h
          obtain rfl := Option.some.inj h
          rcases List.mem_cons.mp hp with rfl | hp2
          · exact pythonGet_mem hg
          · exact ih hc p hp2
    · exact ih h p hp

/-- The filter-and-annotate loop, written as a filter followed by a map. -/
theorem relevantLoop_eq (t : ℚ) (rs : List (Entry × ℚ)) :
    relevantLoop t rs =
      (rs.filter (fun p => decide (t ≤ p.2))).map
        (fun p => { p.1 with similarity_score := some p.2 }) := by
  induction rs with
  | nil => rfl
  | cons p rest ih =>
    by_cases h : t ≤ p.2
    · simp [relevantLoop, List.filter_cons, h, ih]
    · simp [relevantLoop, List.filter_cons, h, ih]

/-- Membership characterization of the filter-and-annotate loop. -/
theorem mem_relevantLoop {t : ℚ} {rs : List (Entry × ℚ)} {x : Entry} :
    x ∈ relevantLoop t rs ↔
      ∃ p, p ∈ rs ∧ t ≤ p.2 ∧ x = { p.1 with similarity_score := some p.2 } := by
  induction rs with
  | nil => simp [relevantLoop]
  | cons p rest ih =>
    by_cases h : t ≤ p.2
    · simp only [relevantLoop, if_pos h, List.mem_cons, ih]
      constructor
      · rintro (rfl | ⟨q, hq, hts, rfl⟩)
        · exact ⟨p, Or.inl rfl, h, rfl⟩
        · exact ⟨q, Or.inr hq, hts, rfl⟩
      · rintro ⟨q, hq, hts, rfl⟩
        rcases hq with rfl | hq2
        · exact Or.inl rfl
        · exact Or.inr ⟨q, hq2, hts, rfl⟩
    · simp only [relevantLoop, if_neg h, ih]
      constructor
      · rintro ⟨q, hq, hts, rfl⟩
        exact ⟨q, List.mem_cons_of_mem _ hq, hts, rfl⟩
      · rintro ⟨q, hq, hts, rfl⟩
        rcases List.mem_cons.mp hq with rfl | hq2
        · exact absurd hts h
        · exact ⟨q, hq2, hts, rfl⟩

/-- When every score falls below the threshold, the filter-and-annotate loop
returns the empty list. -/
theorem relevantLoop_eq_nil {t : ℚ} {rs : List (Entry × ℚ)}
    (h : ∀ p ∈ rs, p.2 < t) : relevantLoop t rs = [] := by
  induction rs with
  | nil => rfl
  | cons p rest ih =>
    have hp := h p (List.mem_cons_self p rest)
    simp only [relevantLoop, if_neg (not_le.mpr hp)]
    exact ih (fun q hq => h q (List.mem_cons_of_mem _ hq))

/-- When the engine already holds an index, `search` performs no lazy
initialization: it queries the held index against the stored entries and
leaves state and store untouched. -/
theorem search_index_some (env : Env) (q : String) (k : Nat) {s : RAGState}
    {d : Disk} {rows : List (List ℚ)} (h : s.index = some rows) :
    search env q k s d =
      (collectResults s.faqs
        (faissSearch rows (env.normalize ((env.encode [q]).headD [])) k)).map
        (fun res => (res, s, d)) := by
  rcases s with ⟨si, sf⟩
  obtain rfl : si = some rows := h
  rfl

/-- Sufficient condition for `annotatedFrom`: every output entry is some
stored entry with only its `similarity_score` key set. -/
theorem annotatedFrom_of {faqs out : List Entry}
    (h : ∀ x ∈ out, ∃ e, e ∈ faqs ∧ ∃ sc : ℚ, x = { e with similarity_score := some sc }) :
    annotatedFrom faqs out = true := by
  unfold annotatedFrom
  rw [List.all_eq_true]
  intro x hx
  rcases h x hx with ⟨e, he, sc, rfl⟩
  rw [Bool.and_eq_true]
  refine ⟨rfl, ?_⟩
  rw [List.any_eq_true]
  exact ⟨e, he, decide_eq_true rfl⟩

/-! ### Claim theorems -/

/-- Claim C1 (evaluation at the failing input): against a non-empty index of
1 row, `search` with `k = 2` returns 2 results, not `min 2 1 = 1` — the FAISS
padding slot (label `-1`, the padding score) passes the `idx < len(self.faqs)`
guard, and Python negative indexing maps it to the last stored entry. -/
theorem C1_search_cardinality_eval :
    search envE "q" 2 { index := some [[]], faqs := [e0] } cD =
      some ([(e0, 0), (e0, FLOAT_LOWEST)], { index := some [[]], faqs := [e0] }, cD) ∧
    Option.map (fun r => r.1.length) (search envE "q" 2 { index := some [[]], faqs := [e0] } cD) =
      some 2 ∧
    2 ≠ min 2 ([[]] : List (List ℚ)).length := by
  decide

/-- Claim C2 (evaluation at the failing input): the sentinel row index `-1`
that FAISS returns for a missing neighbor is not dropped — it satisfies
`idx < len(self.faqs)` and Python negative indexing returns the *last* stored
entry for it; and when the entry list is empty, the subscription
`self.faqs[-1]` raises instead of being silently dropped. -/
theorem C2_search_sentinel_eval :
    search envE "q" 3 { index := some [[], []], faqs := [e0, e1] } cD =
      some ([(e0, 0), (e1, 0), (e1, FLOAT_LOWEST)],
        { index := some [[], []], faqs := [e0, e1] }, cD) ∧
    search envE "q" 1 { index := some [], faqs := [] } cD = none := by
  decide

/-- Claim C3 (evaluation at the failing input): building from empty sources
does yield a zero-row index, but `search` against that empty index raises
(`none`) for `k = 1` instead of returning the empty sequence: FAISS returns
the sentinel row `-1`, which passes the guard (`-1 < 0`) and makes
`self.faqs[-1]` raise `IndexError` on the empty list. -/
theorem C3_empty_corpus_search_raises :
    initializeEngine envE { index := none, faqs := [] } cD =
      ({ index := some [], faqs := [] }, { indexFile := some [], faqsFile := some [] }) ∧
    search envE "anything" 1 { index := some [], faqs := [] }
      { indexFile := some [], faqsFile := some [] } = none := by
  decide

/-- Claim C4 (counterexample): `load_index` performs no row-count consistency
check — a 2-row index paired with a 1-entry list loads with `True` and both
halves published — and a failure on the entries artifact still publishes the
already-read index half, so the state is not "as if never built". -/
theorem C4_load_counterexample :
    load_index { indexFile := some [[], []], faqsFile := some [e0] }
        { index := none, faqs := [] } =
      (true, { index := some [[], []], faqs := [e0] }) ∧
    ([[], []] : List (List ℚ)).length ≠ [e0].length ∧
    load_index { indexFile := some [[]], faqsFile := none } { index := none, faqs := [] } =
      (false, { index := some [[]], faqs := [] }) := by
  decide

/-- Claim C4 (amended): `load_index` returns `False` when either artifact is
missing or unreadable and `True` when both read, with no row-count check; on
a failure after the index artifact was read, the loaded index remains
published (the entries half unchanged), and a mismatched pair that reads
successfully is served as loaded. -/
theorem C4_load_index_behavior (idx : List (List ℚ)) (fs : List Entry)
    (f : Option (List Entry)) (s : RAGState) :
    load_index { indexFile := none, faqsFile := f } s = (false, s) ∧
    load_index { indexFile := some idx, faqsFile := none } s =
      (false, { s with index := some idx }) ∧
    load_index { indexFile := some idx, faqsFile := some fs } s =
      (true, { s with index := some idx, faqs := fs }) :=
  ⟨rfl, rfl, rfl⟩

/-- Claim C5 (evaluation at the failing input): the entry sequence is mutated
in place (`self.faqs.extend(order_faqs)`), so running the build step twice
from the same sources does not reproduce the same sequence — the second run
appends the order-derived entries again, duplicating them. -/
theorem C5_double_build_duplicates :
    (create_embeddings env5 { index := none, faqs := [] }).2.faqs =
      [e0, orderToEntry o0] ∧
    (create_embeddings env5 (create_embeddings env5 { index := none, faqs := [] }).2).2.faqs =
      [e0, orderToEntry o0, orderToEntry o0] ∧
    ([e0, orderToEntry o0, orderToEntry o0] : List Entry) ≠ [e0, orderToEntry o0] := by
  decide

/-- Claim C6: whenever `search(q, k=5)` succeeds with results `rs`,
`get_relevant_faqs(q, t)` returns exactly `rs` with the results scoring below
`t` removed, each survivor a copy of its entry annotated with
`similarity_score` equal to its score, in `search` order; and when no result
clears the threshold, it returns the empty sequence rather than an error. -/
theorem C6_relevant_filters_search (env : Env) (q : String) (t : ℚ) (s : RAGState)
    (d : Disk) (rs : List (Entry × ℚ)) (s1 : RAGState) (d1 : Disk)
    (h : search env q 5 s d = some (rs, s1, d1)) :
    get_relevant_faqs env q t s d =
      some ((rs.filter (fun p => decide (t ≤ p.2))).map
        (fun p => { p.1 with similarity_score := some p.2 }), s1, d1) ∧
    ((∀ p ∈ rs, p.2 < t) → get_relevant_faqs env q t s d = some ([], s1, d1)) := by
  have hg : get_relevant_faqs env q t s d = some (relevantLoop t rs, s1, d1) := by
    unfold get_relevant_faqs
    rw [h]
    rfl
  constructor
  · rw [hg, relevantLoop_eq]
  · intro hb
    rw [hg, relevantLoop_eq_nil hb]

/-- Witness for C6 at a concrete ready engine: `search` succeeds with five
results, none of which clears threshold `1`, and `get_relevant_faqs` returns
the empty sequence. -/
theorem C6_relevant_filters_search_witness :
    get_relevant_faqs envE "q" 1 cS cD = some ([], cS, cD) := by
  have h := C6_relevant_filters_search envE "q" 1 cS cD rs0 cS cD (by decide)
  exact h.2 (by decide)

/-- Claim C7: assembling from a fresh state yields all FAQ-source entries
verbatim, in source order, followed by one synthesized entry per order record
in source order; each order-derived entry has question `"Order <id> details"`,
the deterministic flattened answer with items joined as `"name (xquantity)"`
comma-separated, category `"order_data"`, and carries the originating order
id. -/
theorem C7_assembled_entries (env : Env) (s : RAGState) (h : s.faqs = []) :
    (create_embeddings env s).2.faqs =
      env.faqSource.getD [] ++ (env.orderSource.getD []).map orderToEntry ∧
    ∀ o : OrderRecord,
      (orderToEntry o).question = "Order " ++ o.order_id ++ " details" ∧
      (orderToEntry o).answer =
        "Order ID: " ++ o.order_id ++ ", Customer: " ++ o.customer_name ++
          ", Restaurant: " ++ o.restaurant ++ ", Items: " ++
          String.intercalate ", "
            (o.items.map (fun it => it.name ++ " (x" ++ toString it.quantity ++ ")")) ++
          ", Total: $" ++ o.total_amount ++ ", Status: " ++ o.status ++
          ", Delivery Address: " ++ o.delivery_address ∧
      (orderToEntry o).category = some "order_data" ∧
      (orderToEntry o).order_id = some o.order_id := by
  constructor
  · rcases s with ⟨si, sf⟩
    obtain rfl : sf = [] := h
    rcases env with ⟨enc, nrm, fsrc, osrc⟩
    cases fsrc <;> cases osrc <;> rfl
  · intro o
    exact ⟨rfl, rfl, rfl, rfl⟩

/-- Witness for C7 at a concrete environment holding one FAQ entry and one
order record. -/
theorem C7_assembled_entries_witness :
    (create_embeddings env5 { index := none, faqs := [] }).2.faqs =
      env5.faqSource.getD [] ++ (env5.orderSource.getD []).map orderToEntry ∧
    (orderToEntry o0).category = some "order_data" := by
  have h := C7_assembled_entries env5 { index := none, faqs := [] } rfl
  exact ⟨h.1, (h.2 o0).2.2.1⟩

/-- Claim C8: for thresholds `t1 ≤ t`, whenever `search(q, k=5)` succeeds with
results `rs`, the result set of `get_relevant_faqs` at `t` is a subset of the
one at `t1`, and it is empty whenever `t` exceeds every score `search`
returned. -/
theorem C8_threshold_monotone (env : Env) (q : String) (s : RAGState) (d : Disk)
    (t t1 : ℚ) (hle : t1 ≤ t) (rs : List (Entry × ℚ)) (s1 : RAGState) (d1 : Disk)
    (h : search env q 5 s d = some (rs, s1, d1)) :
    get_relevant_faqs env q t s d = some (relevantLoop t rs, s1, d1) ∧
    get_relevant_faqs env q t1 s d = some (relevantLoop t1 rs, s1, d1) ∧
    relevantLoop t rs ⊆ relevantLoop t1 rs ∧
    ((∀ p ∈ rs, p.2 < t) → relevantLoop t rs = []) := by
  refine ⟨?_, ?_, ?_, fun hb => relevantLoop_eq_nil hb⟩
  · unfold get_relevant_faqs
    rw [h]
    rfl
  · unfold get_relevant_faqs
    rw [h]
    rfl
  · intro x hx
    rcases mem_relevantLoop.mp hx with ⟨p, hp, hts, rfl⟩
    exact mem_relevantLoop.mpr ⟨p, hp, le_trans hle hts, rfl⟩

/-- Witness for C8 at a concrete ready engine with thresholds `2 ≥ 0`: the
stricter result set is a subset of the laxer one, and is empty since every
returned score is below `2`. -/
theorem C8_threshold_monotone_witness :
    relevantLoop 2 rs0 ⊆ relevantLoop 0 rs0 ∧ relevantLoop 2 rs0 = [] := by
  have h := C8_threshold_monotone envE "q" cS cD 2 0 (by decide) rs0 cS cD (by decide)
  exact ⟨h.2.2.1, h.2.2.2 (by decide)⟩

/-- Claim C9: `initialize()` is idempotent — after a first call has brought
the engine to Ready, a second call loads the just-persisted pair back (it
takes the `load_index` branch, so it does not rebuild) and leaves the
in-memory (index, entries) pair and the persisted artifacts unchanged. -/
theorem C9_initializeEngine_idempotent (env : Env) (s : RAGState) (d : Disk) :
    initializeEngine env (initializeEngine env s d).1 (initializeEngine env s d).2 =
      initializeEngine env s d ∧
    load_index (initializeEngine env s d).2 (initializeEngine env s d).1 =
      (true, (initializeEngine env s d).1) := by
  rcases d with ⟨di, df⟩
  cases di <;> cases df <;> exact ⟨rfl, rfl⟩

/-- Claim C10: on a ready engine (`self.index` set), `get_relevant_faqs`
leaves the engine state and the persisted store untouched — in particular no
stored entry gains a `similarity_score` key — and every returned entry is a
copy of some stored entry with only its `similarity_score` key set. -/
theorem C10_relevant_no_mutation (env : Env) (q : String) (t : ℚ) (s : RAGState)
    (d : Disk) (rows : List (List ℚ)) (out : List Entry) (s1 : RAGState) (d1 : Disk)
    (hidx : s.index = some rows)
    (h : get_relevant_faqs env q t s d = some (out, s1, d1)) :
    s1 = s ∧ d1 = d ∧ annotatedFrom s.faqs out = true := by
  have hs := search_index_some env q 5 (d := d) hidx
  unfold get_relevant_faqs at h
  rw [hs] at h
  cases hc : collectResults s.faqs
      (faissSearch rows (env.normalize ((env.encode [q]).headD [])) 5) with
  | none => rw [hc] at h; cases h
  | some rs =>
    rw [hc] at h
    simp only [Option.map_some'] at h
    have h2 := Option.some.inj h
    obtain ⟨ho, h3⟩ := Prod.ext_iff.mp h2
    obtain ⟨hs1, hd1⟩ := Prod.ext_iff.mp h3
    refine ⟨hs1.symm, hd1.symm, ?_⟩
    obtain rfl : relevantLoop t rs = out := ho
    apply annotatedFrom_of
    intro x hx
    rcases mem_relevantLoop.mp hx with ⟨p, hp, hts, rfl⟩
    exact ⟨p.1, collectResults_mem hc p hp, p.2, rfl⟩

/-- Witness for C10 at a concrete ready engine: the call succeeds, returns the
annotated copy of the stored entry, and leaves state and store unchanged. -/
theorem C10_relevant_no_mutation_witness :
    cS.index = some [[]] ∧
    get_relevant_faqs envE "q" 0 cS cD = some (out0, cS, cD) ∧
    (cS = cS ∧ cD = cD ∧ annotatedFrom cS.faqs out0 = true) :=
  ⟨rfl, by decide,
    C10_relevant_no_mutation envE "q" 0 cS cD [[]] out0 cS cD rfl (by decide)⟩

end RAG
